import Mathlib

/-!
Shallow embedding of the consul-oxide client (a Rust client for the Consul
HTTP API) and proofs about its KV, session and HTTP layers.

The embedded source files are src/src/kv.rs, src/src/session.rs,
src/src/http.rs and src/src/lib.rs.  The repository snapshot mixes two
revisions: kv.rs and session.rs call transport helpers
(Client::put, Client::get, Client::send_with_empty), the error enum
ConsulError and the QueryOptions struct that are declared nowhere under
src/, while http.rs and lib.rs belong to a revision with a different
transport (Http::get, Http::get_empty, Client::new).  Definitions for the
missing pieces are modelled from the spec; their doc comments say so
explicitly.  Everything else is translated directly from the source.
-/

namespace ConsulOxide

/-- Modelled from the spec: the error taxonomy of the revision that kv.rs and
session.rs belong to.  The enum ConsulError is not under src/; kv.rs names the
variant MissingParameter explicitly, and the spec's section 7 names transport
and decode failures. -/
inductive ConsulError where
  | TransportFailure : ConsulError
  | DecodeFailure : ConsulError
  | MissingParameter : String → ConsulError
deriving DecidableEq

/-- ConsulResult T from the source is Result of T and ConsulError. -/
abbrev ConsulResult (T : Type) := Except ConsulError T

/-- Embedding of KVPair from src/src/kv.rs.  The u64 fields are modelled as
Nat: the source only compares flags with 0 and prints them, so no wraparound
is reachable. -/
structure KVPair where
  key : String
  createindex : Option Nat := none
  modifyindex : Option Nat := none
  lockindex : Option Nat := none
  flags : Option Nat := none
  value : String := ""
  session : Option String := none
deriving DecidableEq

/-- Modelled from the spec: QueryOptions of the kv.rs revision is not under
src/.  Section 3 of the spec lists its fields; kv.rs and session.rs only pass
the value through to the transport, never inspecting it. -/
structure QueryOptions where
  datacenter : Option String := none
  wait_index : Option Nat := none
  wait_time : Option Nat := none
  token : Option String := none
deriving DecidableEq

/-- HTTP methods used by the embedded calls. -/
inductive Method where
  | GET : Method
  | PUT : Method
  | DELETE : Method
deriving DecidableEq

/-- The request a KV or session operation hands to the transport: method,
path, query parameters (the Rust HashMap modelled as an association list) and
body. -/
structure Request where
  method : Method
  path : String
  params : List (String × String)
  body : String
deriving DecidableEq

/-- HashMap::insert modelled on association lists: any earlier binding of the
key is replaced. -/
def insertParam (ps : List (String × String)) (k v : String) : List (String × String) :=
  ps.filter (fun p => p.1 != k) ++ [(k, v)]

/-- Whether a request carries a query parameter of the given name. -/
def hasParam (req : Request) (name : String) : Bool :=
  (req.params.find? (fun p => p.1 == name)).isSome

/-- The flags-parameter map built identically at the top of acquire_entry,
put_entry and release_entry in src/src/kv.rs: a nonzero Flags value is
inserted under the key "flags", zero or absent flags insert nothing. -/
def kvFlagsParams (pair : KVPair) : List (String × String) :=
  match pair.flags with
  | some i => if i != 0 then insertParam [] "flags" (toString i) else []
  | none => []

/-- Embedding of acquire_entry from src/src/kv.rs.  The transport
(Client::put, absent from src/) is a parameter, so the theorem about the
missing-session branch holds for every transport behaviour. -/
def acquire_entry (transport : Request → Option QueryOptions → ConsulResult Bool)
    (pair : KVPair) (options : Option QueryOptions) : ConsulResult Bool :=
  let params := kvFlagsParams pair
  match pair.session with
  | some session =>
      transport
        { method := Method.PUT, path := "/v1/kv/" ++ pair.key,
          params := insertParam params "acquire" session, body := pair.value }
        options
  | none => Except.error (ConsulError.MissingParameter "session_flag")

/-- Embedding of release_entry from src/src/kv.rs: identical to acquire_entry
except that the session is sent under the "release" parameter. -/
def release_entry (transport : Request → Option QueryOptions → ConsulResult Bool)
    (pair : KVPair) (options : Option QueryOptions) : ConsulResult Bool :=
  let params := kvFlagsParams pair
  match pair.session with
  | some session =>
      transport
        { method := Method.PUT, path := "/v1/kv/" ++ pair.key,
          params := insertParam params "release" session, body := pair.value }
        options
  | none => Except.error (ConsulError.MissingParameter "session_flag")

/-- The request built by put_entry in src/src/kv.rs.  The source constructs
the flags parameter map exactly as acquire_entry does and then calls
self.put(&path, &pair.value, None, o), passing None where acquire_entry
passes Some(params): the computed map is dropped and the request carries no
query parameters. -/
def put_entry_request (pair : KVPair) : Request :=
  let params := kvFlagsParams pair
  { method := Method.PUT, path := "/v1/kv/" ++ pair.key, params := [], body := pair.value }

/-- Embedding of put_entry from src/src/kv.rs. -/
def put_entry (transport : Request → Option QueryOptions → ConsulResult Bool)
    (pair : KVPair) (o : Option QueryOptions) : ConsulResult Bool :=
  transport (put_entry_request pair) o

/-- The request built by delete_entry in src/src/kv.rs: the source signature
takes only the key and the options, and calls self.delete(&path, None,
options) with None for the query parameters, so no recurse parameter can ever
be sent. -/
def delete_entry_request (key : String) : Request :=
  { method := Method.DELETE, path := "/v1/kv/" ++ key, params := [], body := "" }

/-- Embedding of delete_entry from src/src/kv.rs. -/
def delete_entry (transport : Request → Option QueryOptions → ConsulResult Bool)
    (key : String) (options : Option QueryOptions) : ConsulResult Bool :=
  transport (delete_entry_request key) options

/-- A KV store state: the list of live entries, keys unique by construction
of the operations that build it (lookups take the first match). -/
abbrev Store := List KVPair

/-- Modelled from the spec: the store side of a single-key read
(GET /v1/kv/key without recurse).  Section 4.1: get fetches exactly one
entry, and absence is a normal outcome encoded as an empty result list. -/
def kvReadEndpoint (store : Store) (key : String) : List KVPair :=
  match store.find? (fun e => e.key == key) with
  | some e => [e]
  | none => []

/-- Embedding of get_entry from src/src/kv.rs composed with the read
endpoint.  The source builds the path "/v1/kv/" ++ key and delegates to
Client::get, which is absent from src/ and is modelled from the spec as a
successful read decoding the endpoint's entry list. -/
def get_entry (store : Store) (key : String) (options : Option QueryOptions) :
    ConsulResult (List KVPair) :=
  Except.ok (kvReadEndpoint store key)

/-- Whether the string s starts with the string pre, computed on the
character lists. -/
def startsWithChars (s pre : String) : Bool :=
  pre.data.isPrefixOf s.data

/-- Modelled from the spec: the store side of a recurse-mode read returns
every entry whose key starts with the requested path. -/
def kvRecurseEndpoint (store : Store) (pre : String) : List KVPair :=
  store.filter (fun e => startsWithChars e.key pre)

/-- Modelled from the spec: Client::send_with_empty is absent from src/.
Per the spec the recurse-mode wire encoding of an empty result set is an
empty response body, which this helper maps to Ok none instead of a decode
failure; a nonempty result set decodes normally. -/
def send_with_empty (store : Store) (pre : String) :
    ConsulResult (Option (List KVPair)) :=
  let matching := kvRecurseEndpoint store pre
  if matching.isEmpty then Except.ok none else Except.ok (some matching)

/-- Embedding of list_entries from src/src/kv.rs: inserts the "recurse"
parameter, sends through send_with_empty, and maps an absent body to the
empty list with unwrap_or_default. -/
def list_entries (store : Store) (pre : String) (o : Option QueryOptions) :
    ConsulResult (List KVPair) :=
  (send_with_empty store pre).map (fun r => r.getD [])

/-- Modelled from the spec: the store DELETE endpoint removes the single
addressed key, or every key sharing the addressed path when the recurse
parameter is present (spec section 4.1, delete). -/
def kvDeleteEndpoint (store : Store) (key : String) (recurse : Bool) : Store :=
  if recurse then store.filter (fun e => !(startsWithChars e.key key))
  else store.filter (fun e => e.key != key)

/-- Interpretation of a DELETE request against the modelled endpoint: the key
is the path with the "/v1/kv/" part removed, recursion is requested by the
presence of the "recurse" parameter. -/
def runDelete (store : Store) (req : Request) : Store :=
  kvDeleteEndpoint store (req.path.drop 7) (hasParam req "recurse")

/-- A session store state: the ids of live sessions. -/
abbrev Sessions := List String

/-- Modelled from the spec: the store destroy-session endpoint.  Spec
sections 4.2 and 7 (and the doc comment on destroy_session in
src/src/session.rs): destroying is idempotent and reports success even when
the id is unknown or already destroyed or expired. -/
def sessionDestroyEndpoint (sessions : Sessions) (id : String) : Sessions × Bool :=
  (sessions.filter (fun s => s != id), true)

/-- Embedding of destroy_session from src/src/session.rs: issues a PUT to
/v1/session/destroy/id with an empty body and forwards the store's success
flag.  Client::put is absent from src/ and modelled from the spec as
delivering the endpoint's reply. -/
def destroy_session (sessions : Sessions) (id : String)
    (options : Option QueryOptions) : ConsulResult Bool :=
  Except.ok (sessionDestroyEndpoint sessions id).2

/-- Outcome of one blocking wait: the index changed, or the wait timed out.
TimedOut is a constructor of this outcome type, not of ConsulError. -/
inductive WatchOutcome where
  | Changed : Nat → WatchOutcome
  | TimedOut : WatchOutcome
deriving DecidableEq

/-- Modelled from the spec: the Blocking Query Engine (src/ contains no such
component; spec section 4.3).  The key's future writes are a trace of
(arrival time, new modifyIndex) pairs in time order; a wait issued with
waitIndex and waitTime returns Changed with the new index at the first write
arriving within waitTime whose index differs from waitIndex, and TimedOut
otherwise. -/
def blockingWait (waitIndex waitTime : Nat) (writes : List (Nat × Nat)) :
    WatchOutcome :=
  match writes.find? (fun w => decide (w.1 ≤ waitTime) && w.2 != waitIndex) with
  | some w => WatchOutcome.Changed w.2
  | none => WatchOutcome.TimedOut

/-- Embedding of the error enum Error from src/src/lib.rs (the revision that
http.rs belongs to): an HTTP-client error or a missing environment
variable. -/
inductive Error where
  | HttpError : Error
  | MissingEnvVar : String → Error
deriving DecidableEq

/-- An HTTP response as http.rs observes it: status, headers, the
content-length reqwest reports (absent when the transfer does not carry one)
and the raw body. -/
structure HttpResponse where
  status : Nat
  headers : List (String × String)
  contentLength : Option Nat
  body : String
deriving DecidableEq

/-- Whether a response carries a header of the given name. -/
def hasHeader (resp : HttpResponse) (name : String) : Bool :=
  (resp.headers.find? (fun h => h.1 == name)).isSome

/-- Embedding of Http::get from src/src/http.rs: the body is JSON-decoded
and returned; a failed decode maps to Error::HttpError via the From impl.
The JSON decoder for the target type is a parameter.  The response headers
are never consulted. -/
def http_get {T : Type} (resp : HttpResponse) (decode : String → Option T) :
    Except Error T :=
  match decode resp.body with
  | some t => Except.ok t
  | none => Except.error Error.HttpError

/-- Embedding of Http::get_empty from src/src/http.rs: when
response.content_length() is None or Some 0 the function returns Ok(None)
before any decoding; otherwise the body is decoded as in Http::get. -/
def get_empty {T : Type} (resp : HttpResponse) (decode : String → Option T) :
    Except Error (Option T) :=
  if resp.contentLength = none ∨ resp.contentLength = some 0 then
    Except.ok none
  else
    match decode resp.body with
    | some t => Except.ok (some t)
    | none => Except.error Error.HttpError

/-- A header-value byte is valid per reqwest's HeaderValue parsing exactly
when it is horizontal tab or at least 0x20 and not 0x7F (DEL); in particular
carriage return and line feed are invalid. -/
def validHeaderByte (b : Nat) : Bool :=
  b == 9 || (decide (32 ≤ b) && b != 127)

/-- The config.token.parse::<HeaderValue>() step of Client::new: succeeds
exactly when every byte of the token is a valid header-value byte. -/
def headerValueParse (s : String) : Option String :=
  if s.data.all (fun c => validHeaderByte c.toNat) then some s else none

/-- Embedding of Config from src/src/lib.rs. -/
structure Config where
  address : String
  token : String
deriving DecidableEq

/-- How a call to Client::new terminates: a constructed client returned in
Ok, an Err return, or a panic. -/
inductive NewResult where
  | ok : NewResult
  | err : NewResult
  | panicked : NewResult
deriving DecidableEq

/-- Embedding of Client::new from src/src/lib.rs: the token is parsed into a
header value and immediately unwrapped, so an invalid token panics before
the function can return; the reqwest builder error path (mapped to Err) is
not reachable for the fixed builder configuration the source uses, and a
valid token yields Ok. -/
def Client.new (config : Config) : NewResult :=
  match headerValueParse config.token with
  | some _ => NewResult.ok
  | none => NewResult.panicked

/-! Concrete fixtures used by witnesses and counterexamples. -/

/-- A pair whose session field is absent. -/
def pairNoSession : KVPair := { key := "lock/a" }

/-- A transport that would report success on any request. -/
def okTransport : Request → Option QueryOptions → ConsulResult Bool :=
  fun _ _ => Except.ok true

/-- An entry under the config/ namespace. -/
def pairConfigA : KVPair := { key := "config/a", value := "1" }

/-- An entry at the config/ root key itself. -/
def pairConfigRoot : KVPair := { key := "config/", value := "r" }

/-- An entry outside the config/ namespace. -/
def pairNodes : KVPair := { key := "nodes/x", value := "n" }

/-- A pair carrying nonzero flags. -/
def pairFlags : KVPair := { key := "k", flags := some 42, value := "v" }

/-- A store holding the config/ root key and one key below it. -/
def storeConfig : Store := [pairConfigRoot, pairConfigA]

/-- A successful response with no headers at all and a decodable body. -/
def respNoIndex : HttpResponse :=
  { status := 200, headers := [], contentLength := some 2, body := "ok" }

/-- A successful response with no content length but a data-carrying body. -/
def respChunked : HttpResponse :=
  { status := 200, headers := [("X-Consul-Index", "7")], contentLength := none,
    body := "data" }

/-- A decoder that accepts any nonempty body. -/
def decodeNonempty : String → Option String :=
  fun s => if s = "" then none else some s

/-- A config whose token contains a newline and so is not a valid header
value. -/
def cfgBadToken : Config :=
  { address := "http://localhost:8500", token := "secret\ntoken" }

/-- Claim C1: for every KVPair whose session field is absent, acquire_entry
and release_entry fail with the MissingParameter "session_flag"
caller-contract error (the spec's MissingSession) for every transport
behaviour and every options value — never a transport error and never a
success flag, regardless of the state of the key. -/
theorem acquire_release_missing_session (pair : KVPair) (h : pair.session = none)
    (transport : Request → Option QueryOptions → ConsulResult Bool)
    (options : Option QueryOptions) :
    acquire_entry transport pair options
        = Except.error (ConsulError.MissingParameter "session_flag") ∧
    release_entry transport pair options
        = Except.error (ConsulError.MissingParameter "session_flag") := by
  refine ⟨?_, ?_⟩ <;> simp [acquire_entry, release_entry, h]

/-- Witness for C1: a concrete sessionless pair, against a transport that
would report success, still fails with the caller-contract error on both
operations. -/
theorem acquire_release_missing_session_witness :
    acquire_entry okTransport pairNoSession none
        = Except.error (ConsulError.MissingParameter "session_flag") ∧
    release_entry okTransport pairNoSession none
        = Except.error (ConsulError.MissingParameter "session_flag") :=
  acquire_release_missing_session pairNoSession rfl okTransport none

/-- Claim C2: a blocking wait issued with waitIndex equal to the key's
current modifyIndex returns TimedOut (a constructor of the outcome type, not
an error) when no write arrives within waitTime, and returns Changed with
the new index when a put arrives within waitTime carrying a different
modifyIndex. -/
theorem blockingWait_timeout_or_changed (waitIndex waitTime : Nat) :
    (∀ writes : List (Nat × Nat), (∀ w ∈ writes, waitTime < w.1) →
      blockingWait waitIndex waitTime writes = WatchOutcome.TimedOut) ∧
    (∀ (t idx : Nat) (rest : List (Nat × Nat)), t ≤ waitTime → idx ≠ waitIndex →
      blockingWait waitIndex waitTime ((t, idx) :: rest)
        = WatchOutcome.Changed idx) := by
  constructor
  · intro writes h
    have hnone :
        writes.find? (fun w => decide (w.1 ≤ waitTime) && w.2 != waitIndex)
          = none := by
      apply List.find?_eq_none.mpr
      intro w hw hcontra
      rw [Bool.and_eq_true, decide_eq_true_eq] at hcontra
      exact absurd hcontra.1 (Nat.not_le.mpr (h w hw))
    unfold blockingWait
    rw [hnone]
  · intro t idx rest ht hne
    unfold blockingWait
    rw [List.find?_cons_of_pos _ (by simp [ht, hne])]

/-- Witness for C2: with current index 5 and a ten-tick wait, a write
arriving at tick 20 leaves the wait timing out, while a write to index 7
arriving at tick 3 is delivered as Changed 7. -/
theorem blockingWait_timeout_or_changed_witness :
    blockingWait 5 10 [(20, 6)] = WatchOutcome.TimedOut ∧
    blockingWait 5 10 [(3, 7)] = WatchOutcome.Changed 7 :=
  ⟨(blockingWait_timeout_or_changed 5 10).1 [(20, 6)] (by decide),
   (blockingWait_timeout_or_changed 5 10).2 3 7 [] (by decide) (by decide)⟩

/-- Claim C3: get_entry returns the normal absent outcome (Ok with the empty
list, never an error) for a key with no entry in the store, and Ok with
exactly the one matching entry for a key present in the store. -/
theorem get_entry_absent_or_single (store : Store) (key : String)
    (options : Option QueryOptions) :
    (store.find? (fun x => x.key == key) = none →
      get_entry store key options = Except.ok []) ∧
    (∀ e : KVPair, store.find? (fun x => x.key == key) = some e →
      get_entry store key options = Except.ok [e]) := by
  constructor
  · intro h
    simp [get_entry, kvReadEndpoint, h]
  · intro e h
    simp [get_entry, kvReadEndpoint, h]

/-- Witness for C3: a never-written key yields Ok [], an existing key yields
exactly its one entry. -/
theorem get_entry_absent_or_single_witness :
    get_entry [pairConfigA] "missing" none = Except.ok [] ∧
    get_entry [pairConfigA] "config/a" none = Except.ok [pairConfigA] :=
  ⟨(get_entry_absent_or_single [pairConfigA] "missing" none).1 (by decide),
   (get_entry_absent_or_single [pairConfigA] "config/a" none).2 pairConfigA
     (by decide)⟩

/-- Claim C4: when no entry of the store matches the requested path,
list_entries returns Ok [] — not an error and not a decode failure — the
empty recurse-mode body having been mapped through unwrap_or_default. -/
theorem list_entries_empty_result (store : Store) (pre : String)
    (o : Option QueryOptions)
    (h : ∀ e ∈ store, startsWithChars e.key pre = false) :
    list_entries store pre o = Except.ok [] := by
  have hf : kvRecurseEndpoint store pre = [] := by
    apply List.filter_eq_nil_iff.mpr
    intro e he
    simp [h e he]
  simp [list_entries, send_with_empty, hf, Except.map]

/-- Witness for C4: listing the config/ namespace over a store holding only
an unrelated key returns the empty list. -/
theorem list_entries_empty_result_witness :
    list_entries [pairNodes] "config/" none = Except.ok [] :=
  list_entries_empty_result [pairNodes] "config/" none (by decide)

/-- Claim C5: destroy_session reports Ok true for every session-store state
and every id — including ids absent from the store, hence unknown or already
destroyed or expired — and destroying the same id again succeeds and leaves
the store state unchanged. -/
theorem destroy_session_idempotent_success (sessions : Sessions) (id : String)
    (options : Option QueryOptions) :
    destroy_session sessions id options = Except.ok true ∧
    destroy_session (sessionDestroyEndpoint sessions id).1 id options
      = Except.ok true ∧
    (sessionDestroyEndpoint (sessionDestroyEndpoint sessions id).1 id).1
      = (sessionDestroyEndpoint sessions id).1 := by
  refine ⟨rfl, rfl, ?_⟩
  simp [sessionDestroyEndpoint, List.filter_filter]

/-- Claim C6, refuted at the failing input: put_entry computes the flags
parameter map exactly as acquire_entry does, but the source passes None for
the query parameters, so the sent request carries no parameters and the
entry's flags are not forwarded.  The request also carries no acquire or
release parameter, so the no-change-to-session part of the claim does
hold. -/
theorem put_entry_drops_flags :
    pairFlags.flags = some 42 ∧
    kvFlagsParams pairFlags = [("flags", "42")] ∧
    (∀ pair : KVPair, (put_entry_request pair).params = []) ∧
    hasParam (put_entry_request pairFlags) "acquire" = false ∧
    hasParam (put_entry_request pairFlags) "release" = false := by
  refine ⟨rfl, by decide, fun pair => rfl, by decide, by decide⟩

/-- Claim C7, refuted: delete_entry takes no recursive argument and its
request never carries the recurse parameter, so only the single addressed
key can be removed: deleting "config/" against a store holding "config/"
and "config/a" removes just the root key and leaves "config/a", whereas the
recurse-mode endpoint would have emptied the whole subtree. -/
theorem delete_entry_never_recursive :
    (∀ key : String, (delete_entry_request key).params = []) ∧
    (∀ key : String, hasParam (delete_entry_request key) "recurse" = false) ∧
    runDelete storeConfig (delete_entry_request "config/") = [pairConfigA] ∧
    kvDeleteEndpoint storeConfig "config/" true = [] := by
  refine ⟨fun key => rfl, fun key => rfl, by decide, by decide⟩

/-- Counterexample to claim C8: a successful response that lacks the
X-Consul-Index header (it has no headers at all) and whose body decodes is
returned as Ok by Http::get, not surfaced as a decode error. -/
theorem http_get_no_index_header_is_ok :
    hasHeader respNoIndex "X-Consul-Index" = false ∧
    http_get respNoIndex decodeNonempty = Except.ok "ok" := by
  exact ⟨rfl, rfl⟩

/-- Claim C8 as amended: neither Http::get nor Http::get_empty examines the
response headers, so a missing index header never surfaces a decode error;
on a response whose body decodes, Http::get returns Ok with the decoded
value, and Http::get_empty returns Ok none when the reported content length
is unknown or zero and Ok with the decoded value otherwise — all regardless
of which headers the response carries. -/
theorem http_get_ignores_index_header {T : Type} (resp : HttpResponse)
    (decode : String → Option T) (t : T) (h : decode resp.body = some t) :
    http_get resp decode = Except.ok t ∧
    (resp.contentLength = none ∨ resp.contentLength = some 0 →
      get_empty resp decode = Except.ok none) ∧
    (∀ n : Nat, resp.contentLength = some n → n ≠ 0 →
      get_empty resp decode = Except.ok (some t)) := by
  refine ⟨?_, ?_, ?_⟩
  · simp [http_get, h]
  · intro hlen
    unfold get_empty
    rw [if_pos hlen]
  · intro n hn hnz
    unfold get_empty
    rw [if_neg (by simp [hn, hnz]), h]

/-- Witness for the amended C8: two concrete headerless-index responses, one
with unknown content length reported empty, one with a nonzero content
length decoded and returned; Http::get decodes either way. -/
theorem http_get_ignores_index_header_witness :
    http_get respChunked decodeNonempty = Except.ok "data" ∧
    get_empty respChunked decodeNonempty = Except.ok none ∧
    get_empty respNoIndex decodeNonempty = Except.ok (some "ok") :=
  ⟨(http_get_ignores_index_header respChunked decodeNonempty "data" rfl).1,
   (http_get_ignores_index_header respChunked decodeNonempty "data" rfl).2.1
     (Or.inl rfl),
   (http_get_ignores_index_header respNoIndex decodeNonempty "ok" rfl).2.2 2
     rfl (by decide)⟩

/-- Claim C9: when the reported content length is unknown or zero, get_empty
returns Ok none for every decoder and every body, without decoding. -/
theorem get_empty_unknown_length_none {T : Type} (resp : HttpResponse)
    (decode : String → Option T)
    (h : resp.contentLength = none ∨ resp.contentLength = some 0) :
    get_empty resp decode = Except.ok none := by
  unfold get_empty
  rw [if_pos h]

/-- Witness for C9: a response with no content length is reported empty even
though its body carries decodable data. -/
theorem get_empty_unknown_length_none_witness :
    get_empty respChunked decodeNonempty = Except.ok none ∧
    decodeNonempty respChunked.body = some "data" :=
  ⟨get_empty_unknown_length_none respChunked decodeNonempty (Or.inl rfl), rfl⟩

/-- Claim C10: Client::new, despite its Result return type, panics rather
than returning Err on the concrete Config whose token contains a newline,
because the token fails header-value parsing and is immediately
unwrapped. -/
theorem client_new_panics_on_bad_token :
    headerValueParse cfgBadToken.token = none ∧
    Client.new cfgBadToken = NewResult.panicked ∧
    Client.new cfgBadToken ≠ NewResult.err := by
  refine ⟨?_, ?_, ?_⟩ <;> decide

end ConsulOxide
